import Mathlib

/-!
Verification of the session/conversation orchestration layer of the
stoicChatBOT repository: a shallow embedding of the storage backends
(`src/server/storage.ts`), the route-level handlers and the in-memory rate
limiter (routes module), with theorems settling the specification claims.

Times are modelled as `Int` milliseconds (JS `Date.now()`); every operation
that reads the clock in the source takes an explicit `now` parameter.
JS `Map` objects are modelled as association lists with the observable
`get`/`set`/`delete`/`has` operations; `sources` values travel through the
storage layer as opaque JSON blobs (`any` in the source, JSONB in the
database), modelled as `Option String`.
-/

namespace StoicChat

/-- Association-list model of a JS `Map`. Only `get`/`set`/`delete`/`has`
are observed by the source code. -/
abbrev AssocMap (α β : Type) := List (α × β)

def mapGet? {α β : Type} [DecidableEq α] (m : AssocMap α β) (k : α) : Option β :=
  (m.find? (fun p => decide (p.1 = k))).map (·.2)

def mapSet {α β : Type} [DecidableEq α] (m : AssocMap α β) (k : α) (v : β) : AssocMap α β :=
  (k, v) :: m.filter (fun p => decide (p.1 ≠ k))

def mapDelete {α β : Type} [DecidableEq α] (m : AssocMap α β) (k : α) : AssocMap α β :=
  m.filter (fun p => decide (p.1 ≠ k))

@[simp] theorem mapGet?_nil {α β : Type} [DecidableEq α] (k : α) :
    mapGet? (α := α) (β := β) [] k = none := rfl

@[simp] theorem mapGet?_cons {α β : Type} [DecidableEq α] (p : α × β) (m : AssocMap α β) (k : α) :
    mapGet? (p :: m) k = if p.1 = k then some p.2 else mapGet? m k := by
  by_cases h : p.1 = k <;> simp [mapGet?, List.find?, h]

theorem mapGet?_filter_ne {α β : Type} [DecidableEq α] (m : AssocMap α β) (k k' : α)
    (h : k' ≠ k) : mapGet? (m.filter (fun p => decide (p.1 ≠ k))) k' = mapGet? m k' := by
  induction m with
  | nil => rfl
  | cons p m ih =>
    by_cases hp : p.1 = k
    · rw [List.filter_cons_of_neg (by simp [hp]), ih, mapGet?_cons,
        if_neg (by rw [hp]; exact fun hh => h hh.symm)]
    · rw [List.filter_cons_of_pos (by simp [hp]), mapGet?_cons, mapGet?_cons]
      by_cases hk' : p.1 = k'
      · rw [if_pos hk', if_pos hk']
      · rw [if_neg hk', if_neg hk', ih]

@[simp] theorem mapGet?_mapSet_self {α β : Type} [DecidableEq α] (m : AssocMap α β) (k : α) (v : β) :
    mapGet? (mapSet m k v) k = some v := by
  simp [mapSet]

theorem mapGet?_mapSet_other {α β : Type} [DecidableEq α] (m : AssocMap α β) (k k' : α) (v : β)
    (h : k' ≠ k) : mapGet? (mapSet m k v) k' = mapGet? m k' := by
  simp only [mapSet, mapGet?_cons]
  rw [if_neg (fun hk => h (hk.symm)), mapGet?_filter_ne m k k' h]

@[simp] theorem mapGet?_mapDelete_self {α β : Type} [DecidableEq α] (m : AssocMap α β) (k : α) :
    mapGet? (mapDelete m k) k = none := by
  induction m with
  | nil => rfl
  | cons p m ih =>
    by_cases hp : p.1 = k
    · simpa [mapDelete, hp] using ih
    · simpa [mapDelete, hp] using ih

theorem mapGet?_mapDelete_other {α β : Type} [DecidableEq α] (m : AssocMap α β) (k k' : α)
    (h : k' ≠ k) : mapGet? (mapDelete m k) k' = mapGet? m k' :=
  mapGet?_filter_ne m k k' h

theorem mapGet?_some_mem_keys {α β : Type} [DecidableEq α] (m : AssocMap α β) (k : α) (v : β)
    (h : mapGet? m k = some v) : k ∈ m.map (·.1) := by
  induction m with
  | nil => simp [mapGet?] at h
  | cons p m ih =>
    by_cases hp : p.1 = k
    · simp [hp]
    · simp only [mapGet?_cons, if_neg hp] at h
      simp [ih h]

/-! ## Data model (from `@shared/schema` as used by `src/server/storage.ts`) -/

/-- Message role, the TS union type `'user' | 'assistant'`. -/
inductive Role where
  | user
  | assistant
deriving DecidableEq, Repr

/-- Durable conversation row (`conversations` table). -/
structure Conversation where
  id : Nat
  userId : Nat
  title : String
  createdAt : Int
deriving DecidableEq, Repr

/-- Durable message row (`messages` table); `sources` is an opaque JSONB
blob never inspected by the orchestration layer. -/
structure Message where
  id : Nat
  conversationId : Nat
  role : Role
  content : String
  sources : Option String
  createdAt : Int
deriving DecidableEq, Repr

/-- Guest conversation record (`GuestConversation` in the source). -/
structure GuestConversation where
  id : String
  sessionId : String
  title : String
  createdAt : Int
deriving DecidableEq, Repr

/-- Guest message record (`GuestMessage` in the source). -/
structure GuestMessage where
  id : String
  conversationId : String
  role : Role
  content : String
  sources : Option String
  responseType : String
  createdAt : Int
deriving DecidableEq, Repr

/-! ## Stable sort by an integer key

Both backends sort message lists by `createdAt` before returning them:
the guest store with JS `Array.prototype.sort` (stable, numeric comparator
`a.createdAt - b.createdAt`), the durable store with `ORDER BY createdAt`
over rows held here in insertion order. Both are modelled by a stable
insertion sort on the key. -/

def insertAsc {α : Type} (key : α → Int) (a : α) : List α → List α
  | [] => [a]
  | b :: bs => if key b ≤ key a then b :: insertAsc key a bs else a :: b :: bs

def stableSortBy {α : Type} (key : α → Int) (l : List α) : List α :=
  l.foldl (fun acc a => insertAsc key a acc) []

theorem mem_insertAsc {α : Type} (key : α → Int) (a x : α) (l : List α) :
    x ∈ insertAsc key a l ↔ x = a ∨ x ∈ l := by
  induction l with
  | nil => simp [insertAsc]
  | cons b bs ih =>
    by_cases h : key b ≤ key a
    · simp only [insertAsc, if_pos h, List.mem_cons, ih]
      tauto
    · simp only [insertAsc, if_neg h, List.mem_cons]

theorem mem_foldl_insertAsc {α : Type} (key : α → Int) (l : List α) :
    ∀ (acc : List α) (x : α), x ∈ l.foldl (fun acc a => insertAsc key a acc) acc ↔ x ∈ acc ∨ x ∈ l := by
  induction l with
  | nil => simp
  | cons b bs ih =>
    intro acc x
    simp only [List.foldl_cons, ih, mem_insertAsc, List.mem_cons]
    tauto

theorem mem_stableSortBy {α : Type} (key : α → Int) (l : List α) (x : α) :
    x ∈ stableSortBy key l ↔ x ∈ l := by
  simp [stableSortBy, mem_foldl_insertAsc]

theorem insertAsc_of_all_le {α : Type} (key : α → Int) (a : α) (l : List α)
    (h : ∀ b ∈ l, key b ≤ key a) : insertAsc key a l = l ++ [a] := by
  induction l with
  | nil => rfl
  | cons b bs ih =>
    have hb : key b ≤ key a := h b (by simp)
    simp only [insertAsc, if_pos hb, List.cons_append, List.cons.injEq, true_and]
    exact ih (fun c hc => h c (by simp [hc]))

theorem stableSortBy_append_single {α : Type} (key : α → Int) (l : List α) (a : α)
    (h : ∀ b ∈ l, key b ≤ key a) :
    stableSortBy key (l ++ [a]) = stableSortBy key l ++ [a] := by
  have : stableSortBy key (l ++ [a]) = insertAsc key a (stableSortBy key l) := by
    simp [stableSortBy]
  rw [this]
  exact insertAsc_of_all_le key a _ (fun b hb => h b ((mem_stableSortBy key l b).mp hb))

/-! ## Ephemeral backend: `GuestSessionStorage` (`src/server/storage.ts` 132-268)

`generateId()` draws from `Math.random`; every creating operation takes the
fresh id as an explicit parameter. Every operation that calls `Date.now()` /
`new Date()` takes `now : Int`. -/

/-- In-memory state of `GuestSessionStorage`: three JS `Map`s keyed by
sessionId. -/
structure GuestStore where
  conversations : AssocMap String (List GuestConversation)
  messages : AssocMap String (List GuestMessage)
  sessionTimestamps : AssocMap String Int
deriving DecidableEq, Repr

def GuestStore.empty : GuestStore := ⟨[], [], []⟩

/-- `SESSION_TIMEOUT = 24 * 60 * 60 * 1000` (24 hours in ms). -/
def SESSION_TIMEOUT : Int := 24 * 60 * 60 * 1000

/-- `isSessionExpired`: no timestamp, or `now - timestamp > SESSION_TIMEOUT`. -/
def isSessionExpired (g : GuestStore) (sessionId : String) (now : Int) : Bool :=
  match mapGet? g.sessionTimestamps sessionId with
  | none => true
  | some t => decide (now - t > SESSION_TIMEOUT)

/-- `touchSession`: set `lastTouchedAt` to the current time. -/
def touchSession (g : GuestStore) (sessionId : String) (now : Int) : GuestStore :=
  { g with sessionTimestamps := mapSet g.sessionTimestamps sessionId now }

/-- `cleanupSession`: delete the session's entries from all three maps. -/
def cleanupSession (g : GuestStore) (sessionId : String) : GuestStore :=
  { conversations := mapDelete g.conversations sessionId
    messages := mapDelete g.messages sessionId
    sessionTimestamps := mapDelete g.sessionTimestamps sessionId }

/-- `getGuestConversations`: expiry check, purge-and-return-empty when
expired, else touch and return the session's conversation list. -/
def getGuestConversations (g : GuestStore) (sessionId : String) (now : Int) :
    List GuestConversation × GuestStore :=
  if isSessionExpired g sessionId now then ([], cleanupSession g sessionId)
  else
    let g' := touchSession g sessionId now
    ((mapGet? g.conversations sessionId).getD [], g')

/-- `createGuestConversation`: touches unconditionally (no expiry check) and
prepends (`unshift`) the new conversation. -/
def createGuestConversation (g : GuestStore) (sessionId title newId : String) (now : Int) :
    GuestConversation × GuestStore :=
  let g' := touchSession g sessionId now
  let conversation : GuestConversation :=
    { id := newId, sessionId := sessionId, title := title, createdAt := now }
  let sessionConversations := (mapGet? g'.conversations sessionId).getD []
  let updated := mapSet g'.conversations sessionId (conversation :: sessionConversations)
  (conversation, { g' with conversations := updated })

/-- `getGuestConversation`: expiry check, else touch and find by id. -/
def getGuestConversation (g : GuestStore) (id sessionId : String) (now : Int) :
    Option GuestConversation × GuestStore :=
  if isSessionExpired g sessionId now then (none, cleanupSession g sessionId)
  else
    let g' := touchSession g sessionId now
    (((mapGet? g.conversations sessionId).getD []).find? (fun c => decide (c.id = id)), g')

/-- `updateGuestConversationTitle`: expiry check, else touch and rewrite the
matching conversation's title in place. -/
def updateGuestConversationTitle (g : GuestStore) (id sessionId title : String) (now : Int) :
    GuestStore :=
  if isSessionExpired g sessionId now then cleanupSession g sessionId
  else
    let g' := touchSession g sessionId now
    let conversations := (mapGet? g'.conversations sessionId).getD []
    if (conversations.find? (fun c => decide (c.id = id))).isSome then
      let updated := conversations.map (fun c => if c.id = id then { c with title := title } else c)
      { g' with conversations := mapSet g'.conversations sessionId updated }
    else g'

/-- `deleteGuestConversation`: expiry check, else remove the conversation and
its messages. Note: the non-expired path does NOT call `touchSession`. -/
def deleteGuestConversation (g : GuestStore) (id sessionId : String) (now : Int) : GuestStore :=
  if isSessionExpired g sessionId now then cleanupSession g sessionId
  else
    let conversations := (mapGet? g.conversations sessionId).getD []
    let filtered := conversations.filter (fun c => decide (c.id ≠ id))
    let msgs := (mapGet? g.messages sessionId).getD []
    let filteredMessages := msgs.filter (fun m => decide (m.conversationId ≠ id))
    let convs' := mapSet g.conversations sessionId filtered
    let msgs' := mapSet g.messages sessionId filteredMessages
    { g with conversations := convs', messages := msgs' }

/-- `getGuestConversationMessages`: expiry check, else touch, filter by
conversation and sort by `createdAt` (stable JS sort). -/
def getGuestConversationMessages (g : GuestStore) (conversationId sessionId : String) (now : Int) :
    List GuestMessage × GuestStore :=
  if isSessionExpired g sessionId now then ([], cleanupSession g sessionId)
  else
    let g' := touchSession g sessionId now
    let msgs := (mapGet? g.messages sessionId).getD []
    (stableSortBy (·.createdAt) (msgs.filter (fun m => decide (m.conversationId = conversationId))),
      g')

/-- `createGuestMessage`: touches unconditionally (no expiry check) and
appends (`push`) the new message. -/
def createGuestMessage (g : GuestStore) (conversationId sessionId : String) (role : Role)
    (content : String) (sources : Option String) (responseType : Option String)
    (newId : String) (now : Int) : GuestMessage × GuestStore :=
  let g' := touchSession g sessionId now
  let message : GuestMessage :=
    { id := newId, conversationId := conversationId, role := role, content := content
      sources := sources, responseType := responseType.getD "general", createdAt := now }
  let sessionMessages := (mapGet? g'.messages sessionId).getD []
  (message,
    { g' with messages := mapSet g'.messages sessionId (sessionMessages ++ [message]) })

/-- `deleteGuestMessage`: no expiry check and no touch; filters the session's
message list. -/
def deleteGuestMessage (g : GuestStore) (id conversationId sessionId : String) : GuestStore :=
  let msgs := (mapGet? g.messages sessionId).getD []
  let filtered := msgs.filter (fun m => decide (¬ (m.id = id ∧ m.conversationId = conversationId)))
  { g with messages := mapSet g.messages sessionId filtered }

/-- `cleanupExpiredSessions` (the SessionReaper body): scan the timestamp
keys, purging every expired session. -/
def cleanupExpiredSessions (g : GuestStore) (now : Int) : GuestStore :=
  (g.sessionTimestamps.map (·.1)).foldl
    (fun acc sid => if isSessionExpired acc sid now then cleanupSession acc sid else acc) g

/-! ## Durable backend: `DatabaseStorage` (`src/server/storage.ts` 39-129)

The database is modelled as row lists with serial ids. `deleteConversation`
issues `DELETE FROM conversations WHERE id = ? AND userId = ?`; the schema's
foreign key cascade-deletes the messages of any conversation row actually
removed. -/

structure DurableDB where
  conversations : List Conversation
  messages : List Message
  nextConvId : Nat
  nextMsgId : Nat
deriving DecidableEq, Repr

/-- `getConversation`: `SELECT ... WHERE id = ? AND userId = ?`. -/
def getConversation (db : DurableDB) (id userId : Nat) : Option Conversation :=
  db.conversations.find? (fun c => decide (c.id = id ∧ c.userId = userId))

/-- `createConversation`: insert with a fresh serial id. -/
def createConversation (db : DurableDB) (userId : Nat) (title : String) (now : Int) :
    Conversation × DurableDB :=
  let c : Conversation := { id := db.nextConvId, userId := userId, title := title, createdAt := now }
  (c, { db with conversations := db.conversations ++ [c], nextConvId := db.nextConvId + 1 })

/-- `updateConversationTitle`: `UPDATE ... SET title WHERE id = ? AND
userId = ?`; matches nothing when the conversation is not owned. -/
def updateConversationTitle (db : DurableDB) (id userId : Nat) (title : String) : DurableDB :=
  let convs := db.conversations.map
    (fun c => if c.id = id ∧ c.userId = userId then { c with title := title } else c)
  { db with conversations := convs }

/-- `deleteConversation`: `DELETE ... WHERE id = ? AND userId = ?` plus the
schema-level cascade onto the deleted conversations' messages. Deletes
nothing (and reports nothing) when the conversation is not owned. -/
def deleteConversation (db : DurableDB) (id userId : Nat) : DurableDB :=
  let removedIds := (db.conversations.filter
    (fun c => decide (c.id = id ∧ c.userId = userId))).map (·.id)
  let convs := db.conversations.filter (fun c => decide (¬ (c.id = id ∧ c.userId = userId)))
  let msgs := db.messages.filter (fun m => decide (m.conversationId ∉ removedIds))
  { db with conversations := convs, messages := msgs }

/-- `getConversationMessages`: verifies ownership first (throws
`"Conversation not found"`), then returns the conversation's messages
ordered by `createdAt`. -/
def getConversationMessages (db : DurableDB) (conversationId userId : Nat) :
    Except String (List Message) :=
  match getConversation db conversationId userId with
  | none => .error "Conversation not found"
  | some _ =>
    .ok (stableSortBy (·.createdAt)
      (db.messages.filter (fun m => decide (m.conversationId = conversationId))))

/-- `createMessage`: plain insert, no ownership check at this layer. -/
def createMessage (db : DurableDB) (conversationId : Nat) (role : Role) (content : String)
    (sources : Option String) (now : Int) : Message × DurableDB :=
  let m : Message := { id := db.nextMsgId, conversationId := conversationId, role := role
                       content := content, sources := sources, createdAt := now }
  (m, { db with messages := db.messages ++ [m], nextMsgId := db.nextMsgId + 1 })

/-- `deleteMessage`: verifies ownership of the conversation first (throws
`"Conversation not found"`), then deletes the matching message row. -/
def deleteMessage (db : DurableDB) (id conversationId userId : Nat) : Except String DurableDB :=
  match getConversation db conversationId userId with
  | none => .error "Conversation not found"
  | some _ =>
    let msgs := db.messages.filter (fun m => decide (¬ (m.id = id ∧ m.conversationId = conversationId)))
    .ok { db with messages := msgs }

/-! ## Rate limiter (routes module, both variants, lines 52-74 / 433-455)

One module-level `Map` keyed by `req.ip` only; each `rateLimit(max, window)`
middleware closure shares it. -/

/-- The shared rate-limiter map: clientKey to accepted-request timestamps. -/
abbrev RLMap := AssocMap String (List Int)

/-- One invocation of a `rateLimit(maxRequests, windowMs)` middleware: the
route class is captured by the `(maxRequests, windowMs)` pair. -/
structure RLCall where
  key : String
  maxRequests : Nat
  windowMs : Int
  now : Int
deriving DecidableEq, Repr

/-- One middleware execution: evict timestamps at or before
`now - windowMs`, reject with 429 when `maxRequests` remain, else record
`now`. On rejection the map is left with its unfiltered list. -/
def rlStep (m : RLMap) (c : RLCall) : Bool × RLMap :=
  let m1 := if (mapGet? m c.key).isSome then m else mapSet m c.key []
  let requests := ((mapGet? m1 c.key).getD []).filter (fun t => decide (c.now - c.windowMs < t))
  if c.maxRequests ≤ requests.length then (false, m1)
  else (true, mapSet m1 c.key (requests ++ [c.now]))

/-- Run a sequence of middleware invocations, collecting each decision
(`true` = accepted, `false` = rejected with 429). -/
def rlRun (m : RLMap) : List RLCall → List (RLCall × Bool) × RLMap
  | [] => ([], m)
  | c :: rest =>
    let (d, m') := rlStep m c
    let (ps, mf) := rlRun m' rest
    ((c, d) :: ps, mf)

/-- The effect of `rlStep` on a single key's timestamp list, used to reason
about a fixed `(clientKey, route class)` in isolation. -/
def bucketStep (maxR : Nat) (w : Int) (ts : List Int) (now : Int) : Bool × List Int :=
  let requests := ts.filter (fun t => decide (now - w < t))
  if maxR ≤ requests.length then (false, ts)
  else (true, requests ++ [now])

/-- Timestamps of the accepted calls when a single bucket processes the call
times in order with fixed parameters. -/
def acceptedTimes (maxR : Nat) (w : Int) (ts : List Int) : List Int → List Int
  | [] => []
  | now :: rest =>
    let (d, ts') := bucketStep maxR w ts now
    if d then now :: acceptedTimes maxR w ts' rest else acceptedTimes maxR w ts' rest

/-- Route-class rate-limit parameters as configured in the routes module:
register is `rateLimit(5, 15 * 60 * 100000)` in the guest-supporting variant
(line 94) and `rateLimit(5, 15 * 60 * 1000)` in the JWT-only variant
(line 471). -/
def registerRateLimitV1 : Nat × Int := (5, 15 * 60 * 100000)

def registerRateLimitV2 : Nat × Int := (5, 15 * 60 * 1000)

def loginRateLimit : Nat × Int := (10, 15 * 60 * 1000)

def sendMessageRateLimit : Nat × Int := (30, 60 * 1000)

/-! ## Context window (routes module, lines 300-303 and 610-613)

`recentMessages.slice(-6).map(msg => ({ role: msg.role, content:
msg.content }))`. -/

/-- JS `Array.prototype.slice(start)` for a single (possibly negative)
start index. -/
def jsSliceFrom {α : Type} (start : Int) (xs : List α) : List α :=
  let b : Int := if start < 0 then max ((xs.length : Int) + start) 0 else min start (xs.length : Int)
  xs.drop b.toNat

/-- A context entry sent to the generation service: `{role, content}`,
`sources` dropped. -/
structure CtxMessage where
  role : Role
  content : String
deriving DecidableEq, Repr

/-- `contextMessages` over durable messages (JWT-only variant, 610-613; the
registered-user branch of the guest-supporting variant is identical). -/
def contextMessages (recentMessages : List Message) : List CtxMessage :=
  (jsSliceFrom (-6) recentMessages).map (fun msg => { role := msg.role, content := msg.content })

/-- `contextMessages` over guest messages (guest branch of the
guest-supporting variant, 300-303). -/
def contextMessagesG (recentMessages : List GuestMessage) : List CtxMessage :=
  (jsSliceFrom (-6) recentMessages).map (fun msg => { role := msg.role, content := msg.content })

/-! ## Send-message handlers and delete route (guest-supporting routes
module, lines 247-375)

The outbound generation call is the only external effect; its outcome is a
parameter: `.error ()` for a connection failure or non-success status (the
code throws on `!ragResponse.ok`), `.ok r` for a parsed success body. -/

/-- JS `String.prototype.trim()` on the character list (ASCII whitespace,
which is what the handler's inputs exercise). -/
def jsTrim (s : String) : String :=
  let ws := fun c : Char => decide (c = ' ' ∨ c = '\t' ∨ c = '\n' ∨ c = '\r')
  ⟨((s.data.dropWhile ws).reverse.dropWhile ws).reverse⟩

/-- Parsed generation-service success body, as consumed by the handler
(`answer`, opaque `sources`, opaque `usage`). -/
structure ChatResponse where
  answer : String
  sources : Option String
deriving DecidableEq, Repr

/-- Outcome of a route handler: an HTTP status with body message, or the
JSON payload. -/
inductive SendResult (μ : Type) where
  | ok (userMessage : μ) (assistantMessage : μ)
  | err (status : Nat) (message : String)
deriving DecidableEq, Repr

/-- Registered-user branch of `POST /api/conversations/:id/messages`:
validate content, check ownership, persist the user message, build the
context window, call the generation service, persist the assistant message
on success; any throw after validation is caught as
`500 "Failed to process message"` with no rollback. -/
def sendMessageUser (db : DurableDB) (userId conversationId : Nat) (content : String)
    (ragResult : Except Unit ChatResponse) (now : Int) : SendResult Message × DurableDB :=
  if ((jsTrim content).length = 0) then (.err 400 "Message content is required", db)
  else
    match getConversation db conversationId userId with
    | none => (.err 404 "Conversation not found", db)
    | some _ =>
      let (userMessage, db1) := createMessage db conversationId .user (jsTrim content) none now
      match ragResult with
      | .error _ => (.err 500 "Failed to process message", db1)
      | .ok ragData =>
        let (assistantMessage, db2) :=
          createMessage db1 conversationId .assistant ragData.answer ragData.sources now
        (.ok userMessage assistantMessage, db2)

/-- Guest branch of `POST /api/conversations/:id/messages`: ownership check
via `getGuestConversation` (which itself performs the expiry check), user
message via `createGuestMessageWithSession`, context from
`getGuestConversationMessages`, then the generation call. -/
def sendMessageGuest (g : GuestStore) (sessionId conversationId : String) (content : String)
    (ragResult : Except Unit ChatResponse) (userMsgId assistantMsgId : String) (now : Int) :
    SendResult GuestMessage × GuestStore :=
  if ((jsTrim content).length = 0) then (.err 400 "Message content is required", g)
  else
    match getGuestConversation g conversationId sessionId now with
    | (none, g1) => (.err 404 "Conversation not found", g1)
    | (some _, g1) =>
      let (userMessage, g2) :=
        createGuestMessage g1 conversationId sessionId .user (jsTrim content) none none userMsgId now
      let (_, g3) := getGuestConversationMessages g2 conversationId sessionId now
      match ragResult with
      | .error _ => (.err 500 "Failed to process message", g3)
      | .ok ragData =>
        let (assistantMessage, g4) :=
          createGuestMessage g3 conversationId sessionId .assistant ragData.answer ragData.sources
            (some "general") assistantMsgId now
        (.ok userMessage assistantMessage, g4)

/-- `DELETE /api/conversations/:id`, registered-user branch: always responds
`200 "Conversation deleted"`; the storage call deletes only owned rows. -/
def deleteConversationRoute (db : DurableDB) (conversationId userId : Nat) :
    (Nat × String) × DurableDB :=
  ((200, "Conversation deleted"), deleteConversation db conversationId userId)

/-- `DELETE /api/conversations/:id`, guest branch: always responds
`200 "Conversation deleted"`. -/
def deleteGuestConversationRoute (g : GuestStore) (conversationId sessionId : String) (now : Int) :
    (Nat × String) × GuestStore :=
  ((200, "Conversation deleted"), deleteGuestConversation g conversationId sessionId now)

/-! ## `CombinedStorage` (`src/server/storage.ts` 271-316) -/

/-- `CombinedStorage.createGuestMessage`, the `IStorage` signature (no
`sessionId` parameter): unconditionally throws. -/
def combinedCreateGuestMessage (conversationId : String) (role : Role) (content : String)
    (sources : Option String) (responseType : Option String) : Except String GuestMessage :=
  .error "Use createGuestMessageWithSession instead"

/-- `CombinedStorage.createGuestMessageWithSession`: delegates to
`GuestSessionStorage.createGuestMessage`. -/
def createGuestMessageWithSession (g : GuestStore) (conversationId sessionId : String)
    (role : Role) (content : String) (sources : Option String) (responseType : Option String)
    (newId : String) (now : Int) : GuestMessage × GuestStore :=
  createGuestMessage g conversationId sessionId role content sources responseType newId now

/-! ## Theorems -/

theorem jsSliceFrom_neg_six {α : Type} (xs : List α) :
    jsSliceFrom (-6) xs = xs.rtake 6 := by
  have hb : (if (-6 : Int) < 0 then max ((xs.length : Int) + (-6)) 0
      else min (-6) (xs.length : Int)).toNat = xs.length - 6 := by
    rw [if_pos (by norm_num)]
    omega
  simp only [jsSliceFrom, hb, List.rtake]

/-- C9: for every ordered message sequence, the context window sent to the
generation service is exactly the last 6 messages (all of them when fewer
than 6), in order, each reduced to a `{role, content}` pair with `sources`
dropped — in both the durable and the guest variant of the handler. -/
theorem contextWindow_last_six (msgs : List Message) (gmsgs : List GuestMessage) :
    contextMessages msgs =
      ((msgs.reverse.take 6).reverse).map (fun m => ({ role := m.role, content := m.content } : CtxMessage))
    ∧ contextMessagesG gmsgs =
      ((gmsgs.reverse.take 6).reverse).map (fun m => ({ role := m.role, content := m.content } : CtxMessage))
    ∧ (contextMessages msgs).length = min msgs.length 6
    ∧ (msgs.length < 6 →
        contextMessages msgs = msgs.map (fun m => ({ role := m.role, content := m.content } : CtxMessage))) := by
  refine ⟨?_, ?_, ?_, ?_⟩
  · rw [contextMessages, jsSliceFrom_neg_six, List.rtake_eq_reverse_take_reverse]
  · rw [contextMessagesG, jsSliceFrom_neg_six, List.rtake_eq_reverse_take_reverse]
  · rw [contextMessages, jsSliceFrom_neg_six, List.length_map, List.rtake, List.length_drop]
    omega
  · intro h
    rw [contextMessages, jsSliceFrom_neg_six, List.rtake]
    have : msgs.length - 6 = 0 := by omega
    rw [this, List.drop_zero]

/-- C9 witness: concrete evaluations — on a 7-message list the context
window is the last 6 `{role, content}` pairs, and on a 2-message list (the
shorter-than-6 hypothesis discharged) it is all messages. -/
theorem contextWindow_last_six_witness :
    contextMessages [⟨1, 1, .user, "m1", none, 1⟩, ⟨2, 1, .assistant, "m2", none, 2⟩,
        ⟨3, 1, .user, "m3", none, 3⟩, ⟨4, 1, .assistant, "m4", none, 4⟩,
        ⟨5, 1, .user, "m5", none, 5⟩, ⟨6, 1, .assistant, "m6", none, 6⟩,
        ⟨7, 1, .user, "m7", none, 7⟩] =
      [⟨.assistant, "m2"⟩, ⟨.user, "m3"⟩, ⟨.assistant, "m4"⟩, ⟨.user, "m5"⟩,
        ⟨.assistant, "m6"⟩, ⟨.user, "m7"⟩]
    ∧ contextMessages [⟨1, 1, .user, "m1", none, 1⟩, ⟨2, 1, .assistant, "m2", none, 2⟩] =
        [⟨.user, "m1"⟩, ⟨.assistant, "m2"⟩] := by
  constructor
  · rw [(contextWindow_last_six _ []).1]
    decide
  · rw [(contextWindow_last_six
      [⟨1, 1, .user, "m1", none, 1⟩, ⟨2, 1, .assistant, "m2", none, 2⟩] []).2.2.2 (by decide)]
    decide

/-- C7: the registration endpoint's rate limit. The JWT-only variant uses
`rateLimit(5, 15 * 60 * 1000)` (5 requests / 15 minutes = 900000 ms), but
the guest-supporting variant uses `rateLimit(5, 15 * 60 * 100000)` =
90000000 ms (25 hours), so the claimed window does not hold in every
variant: behaviourally, a 6th registration 16.7 minutes after five others is
still rejected under variant 1 but accepted under variant 2. -/
theorem registerRateLimit_window_values :
    registerRateLimitV1 = (5, 90000000)
    ∧ registerRateLimitV1.2 ≠ 900000
    ∧ registerRateLimitV2 = (5, 900000)
    ∧ (bucketStep registerRateLimitV1.1 registerRateLimitV1.2 [0, 1, 2, 3, 4] 1000000).1 = false
    ∧ (bucketStep registerRateLimitV2.1 registerRateLimitV2.2 [0, 1, 2, 3, 4] 1000000).1 = true := by
  decide

/-- C10: the unified interface's guest append-message operation is unusable
as declared — `CombinedStorage.createGuestMessage` unconditionally throws
for every input, while `createGuestMessageWithSession` (which requires the
out-of-band `sessionId`) appends the message to the session's list and
preserves content and sources. -/
theorem combinedCreateGuestMessage_always_throws :
    (∀ (conversationId : String) (role : Role) (content : String)
        (sources responseType : Option String),
      combinedCreateGuestMessage conversationId role content sources responseType =
        .error "Use createGuestMessageWithSession instead")
    ∧ (∀ (g : GuestStore) (conversationId sessionId : String) (role : Role) (content : String)
        (sources responseType : Option String) (newId : String) (now : Int),
      let r := createGuestMessageWithSession g conversationId sessionId role content sources
        responseType newId now
      (mapGet? r.2.messages sessionId).getD [] = ((mapGet? g.messages sessionId).getD []) ++ [r.1]
      ∧ r.1.content = content ∧ r.1.sources = sources ∧ r.1.conversationId = conversationId) := by
  refine ⟨fun _ _ _ _ _ => rfl, ?_⟩
  intro g conversationId sessionId role content sources responseType newId now
  refine ⟨?_, rfl, rfl, rfl⟩
  simp [createGuestMessageWithSession, createGuestMessage, touchSession]

/-- C1 counterexample: with a store holding conversation 1 owned by user 1,
user 2 deleting conversation 1 gets `200 "Conversation deleted"` — not
NotFound — while the conversation survives; likewise the guest delete route
reports success for a conversation of another session. -/
theorem deleteConversation_nonowner_reports_success :
    (deleteConversationRoute ⟨[⟨1, 1, "Owned", 0⟩], [], 2, 1⟩ 1 2).1 = (200, "Conversation deleted")
    ∧ (deleteConversationRoute ⟨[⟨1, 1, "Owned", 0⟩], [], 2, 1⟩ 1 2).1 ≠ (404, "Conversation not found")
    ∧ (deleteConversationRoute ⟨[⟨1, 1, "Owned", 0⟩], [], 2, 1⟩ 1 2).2.conversations = [⟨1, 1, "Owned", 0⟩]
    ∧ (deleteGuestConversationRoute
        ⟨[("s1", [⟨"c1", "s1", "Owned", 0⟩])], [], [("s1", 0), ("s2", 0)]⟩ "c1" "s2" 10).1 =
        (200, "Conversation deleted")
    ∧ mapGet? (deleteGuestConversationRoute
        ⟨[("s1", [⟨"c1", "s1", "Owned", 0⟩])], [], [("s1", 0), ("s2", 0)]⟩ "c1" "s2" 10).2.conversations
        "s1" = some [⟨"c1", "s1", "Owned", 0⟩] := by
  decide

/-- C1 amended: a non-owned conversation is never revealed or modified by
any operation — get returns nothing, list-messages and append fail with
NotFound in the durable backend, and update-title and delete leave the store
unchanged — but delete reports `200 "Conversation deleted"` (not NotFound)
in both backends, update-title reports success, and the ephemeral
list-messages returns an empty list rather than NotFound. -/
theorem nonowned_conversation_access (db : DurableDB) (c : Conversation) (uid : Nat)
    (g : GuestStore) (gc : GuestConversation) (s1 s2 : String)
    (content : String) (rag : Except Unit ChatResponse) (now : Int)
    (umid amid : String) (title : String)
    (hc : c ∈ db.conversations) (hown : c.userId ≠ uid)
    (hnodup : (db.conversations.map (·.id)).Nodup)
    (hcontent : (jsTrim content).length ≠ 0)
    (hgc : gc ∈ (mapGet? g.conversations s1).getD [])
    (hs : s2 ≠ s1)
    (hid : ∀ c' ∈ (mapGet? g.conversations s2).getD [], c'.id ≠ gc.id)
    (hmsg : ∀ m ∈ (mapGet? g.messages s2).getD [], m.conversationId ≠ gc.id) :
    getConversation db c.id uid = none
    ∧ getConversationMessages db c.id uid = .error "Conversation not found"
    ∧ sendMessageUser db uid c.id content rag now = (.err 404 "Conversation not found", db)
    ∧ updateConversationTitle db c.id uid title = db
    ∧ deleteConversationRoute db c.id uid = ((200, "Conversation deleted"), db)
    ∧ (getGuestConversation g gc.id s2 now).1 = none
    ∧ (sendMessageGuest g s2 gc.id content rag umid amid now).1 = .err 404 "Conversation not found"
    ∧ (getGuestConversationMessages g gc.id s2 now).1 = []
    ∧ mapGet? (updateGuestConversationTitle g gc.id s2 title now).conversations s1 =
        mapGet? g.conversations s1
    ∧ (deleteGuestConversationRoute g gc.id s2 now).1 = (200, "Conversation deleted")
    ∧ mapGet? (deleteGuestConversationRoute g gc.id s2 now).2.conversations s1 =
        mapGet? g.conversations s1
    ∧ mapGet? (deleteGuestConversationRoute g gc.id s2 now).2.messages s1 =
        mapGet? g.messages s1 := by
  have hkey : ∀ x ∈ db.conversations, ¬ (x.id = c.id ∧ x.userId = uid) := by
    intro x hx ⟨hxid, hxuid⟩
    have hxc : x = c := List.inj_on_of_nodup_map hnodup hx hc hxid
    exact hown (hxc ▸ hxuid)
  have hget : getConversation db c.id uid = none := by
    rw [getConversation, List.find?_eq_none]
    intro x hx
    simpa using hkey x hx
  have hfind2 : (((mapGet? g.conversations s2).getD []).find?
      (fun c' => decide (c'.id = gc.id))) = none := by
    rw [List.find?_eq_none]
    intro x hx
    simpa using hid x hx
  have hgget : (getGuestConversation g gc.id s2 now).1 = none := by
    rw [getGuestConversation]
    by_cases hexp : isSessionExpired g s2 now
    · simp [hexp]
    · simp [hexp, hfind2]
  refine ⟨hget, ?_, ?_, ?_, ?_, hgget, ?_, ?_, ?_, rfl, ?_, ?_⟩
  · rw [getConversationMessages, hget]
  · rw [sendMessageUser, if_neg hcontent, hget]
  · rw [updateConversationTitle]
    have : db.conversations.map
        (fun x => if x.id = c.id ∧ x.userId = uid then { x with title := title } else x) =
        db.conversations.map id := by
      apply List.map_congr_left
      intro x hx
      rw [if_neg (hkey x hx)]
      rfl
    rw [this, List.map_id]
  · rw [deleteConversationRoute, deleteConversation]
    have hrem : db.conversations.filter (fun x => decide (x.id = c.id ∧ x.userId = uid)) = [] := by
      rw [List.filter_eq_nil_iff]
      intro x hx
      simpa using hkey x hx
    have hconv : db.conversations.filter (fun x => decide (¬ (x.id = c.id ∧ x.userId = uid))) =
        db.conversations := by
      rw [List.filter_eq_self]
      intro x hx
      simp only [decide_eq_true_eq]
      exact hkey x hx
    simp only [hrem, hconv, List.map_nil]
    have hmsgs : db.messages.filter (fun m => decide (m.conversationId ∉ ([] : List Nat))) =
        db.messages := by
      rw [List.filter_eq_self]
      intro m _
      simp
    rw [hmsgs]
  · rw [sendMessageGuest, if_neg hcontent]
    have : getGuestConversation g gc.id s2 now =
        (none, (getGuestConversation g gc.id s2 now).2) := by
      rw [← hgget]
    rw [this]
  · rw [getGuestConversationMessages]
    by_cases hexp : isSessionExpired g s2 now
    · simp [hexp]
    · have hfm : ((mapGet? g.messages s2).getD []).filter
          (fun m => decide (m.conversationId = gc.id)) = [] := by
        rw [List.filter_eq_nil_iff]
        intro m hm
        simpa using hmsg m hm
      simp [hexp, hfm, stableSortBy]
  · rw [updateGuestConversationTitle]
    by_cases hexp : isSessionExpired g s2 now
    · rw [if_pos hexp]
      exact mapGet?_mapDelete_other _ _ _ hs.symm
    · rw [if_neg (by simpa using hexp)]
      have htouch : mapGet? (touchSession g s2 now).conversations s1 = mapGet? g.conversations s1 := rfl
      simp only [touchSession, hfind2, Option.isSome_none, Bool.false_eq_true, if_false]
  · rw [deleteGuestConversationRoute, deleteGuestConversation]
    by_cases hexp : isSessionExpired g s2 now
    · rw [if_pos hexp]
      exact mapGet?_mapDelete_other _ _ _ hs.symm
    · rw [if_neg (by simpa using hexp)]
      exact mapGet?_mapSet_other _ _ _ _ hs.symm
  · rw [deleteGuestConversationRoute, deleteGuestConversation]
    by_cases hexp : isSessionExpired g s2 now
    · rw [if_pos hexp]
      exact mapGet?_mapDelete_other _ _ _ hs.symm
    · rw [if_neg (by simpa using hexp)]
      exact mapGet?_mapSet_other _ _ _ _ hs.symm

/-- C1 witness: the amended non-owned-access theorem instantiated at a
concrete two-identity store. -/
theorem nonowned_conversation_access_witness :
    getConversation ⟨[⟨1, 1, "Owned", 0⟩], [], 2, 1⟩ 1 2 = none
    ∧ deleteConversationRoute ⟨[⟨1, 1, "Owned", 0⟩], [], 2, 1⟩ 1 2 =
        ((200, "Conversation deleted"), ⟨[⟨1, 1, "Owned", 0⟩], [], 2, 1⟩)
    ∧ (getGuestConversation ⟨[("s1", [⟨"c1", "s1", "G", 0⟩]), ("s2", [])], [("s2", [])],
        [("s1", 0), ("s2", 0)]⟩ "c1" "s2" 10).1 = none := by
  have h := nonowned_conversation_access
    ⟨[⟨1, 1, "Owned", 0⟩], [], 2, 1⟩ ⟨1, 1, "Owned", 0⟩ 2
    ⟨[("s1", [⟨"c1", "s1", "G", 0⟩]), ("s2", [])], [("s2", [])], [("s1", 0), ("s2", 0)]⟩
    ⟨"c1", "s1", "G", 0⟩ "s1" "s2" "hello" (.error ()) 10 "u1" "a1" "T"
    (by decide) (by decide) (by decide) (by decide) (by decide) (by decide)
    (by decide) (by decide)
  exact ⟨h.1, h.2.2.2.2.1, h.2.2.2.2.2.1⟩

/-- C2: when the send-message handler's generation call fails (connection
failure or non-success status), in both backends the user's trimmed message
has been persisted, no assistant message has been appended (the set of
assistant messages is unchanged), and the handler returns the
500 "Failed to process message" outcome — distinct from the validation and
not-found outcomes — without rolling back the user message. -/
theorem sendMessage_upstream_failure
    (db : DurableDB) (uid cid : Nat) (content : String) (now : Int)
    (g : GuestStore) (sid gcid umid amid : String) (gnow : Int)
    (hcontent : (jsTrim content).length ≠ 0)
    (hconv : (getConversation db cid uid).isSome)
    (hgconv : ((getGuestConversation g gcid sid gnow).1).isSome) :
    (sendMessageUser db uid cid content (.error ()) now).1 = .err 500 "Failed to process message"
    ∧ (sendMessageUser db uid cid content (.error ()) now).2.messages =
        db.messages ++ [⟨db.nextMsgId, cid, .user, jsTrim content, none, now⟩]
    ∧ (sendMessageUser db uid cid content (.error ()) now).2.messages.filter
        (fun m => decide (m.role = .assistant)) =
        db.messages.filter (fun m => decide (m.role = .assistant))
    ∧ (sendMessageUser db uid cid content (.error ()) now).1 ≠ .err 400 "Message content is required"
    ∧ (sendMessageUser db uid cid content (.error ()) now).1 ≠ .err 404 "Conversation not found"
    ∧ (sendMessageGuest g sid gcid content (.error ()) umid amid gnow).1 =
        .err 500 "Failed to process message"
    ∧ (mapGet? (sendMessageGuest g sid gcid content (.error ()) umid amid gnow).2.messages
        sid).getD [] =
        ((mapGet? g.messages sid).getD []) ++ [⟨umid, gcid, .user, jsTrim content, none, "general", gnow⟩]
    ∧ ((mapGet? (sendMessageGuest g sid gcid content (.error ()) umid amid gnow).2.messages
        sid).getD []).filter (fun m => decide (m.role = .assistant)) =
        ((mapGet? g.messages sid).getD []).filter (fun m => decide (m.role = .assistant)) := by
  obtain ⟨c, hc⟩ := Option.isSome_iff_exists.mp hconv
  have huser : sendMessageUser db uid cid content (.error ()) now =
      (.err 500 "Failed to process message",
        { db with messages := db.messages ++ [⟨db.nextMsgId, cid, .user, jsTrim content, none, now⟩]
                  nextMsgId := db.nextMsgId + 1 }) := by
    rw [sendMessageUser, if_neg hcontent, hc]
    rfl
  have hexp : isSessionExpired g sid gnow = false := by
    by_cases h : isSessionExpired g sid gnow
    · rw [getGuestConversation, if_pos h] at hgconv
      simp at hgconv
    · simpa using h
  obtain ⟨gcv, hgcv⟩ := Option.isSome_iff_exists.mp hgconv
  have hgg : getGuestConversation g gcid sid gnow =
      (some gcv, touchSession g sid gnow) := by
    rw [getGuestConversation, if_neg (by simp [hexp])] at hgcv ⊢
    simp only at hgcv
    rw [hgcv]
  have hexp2 : ∀ g2 : GuestStore, mapGet? g2.sessionTimestamps sid = some gnow →
      isSessionExpired g2 sid gnow = false := by
    intro g2 h2
    rw [isSessionExpired, h2]
    simp [SESSION_TIMEOUT]
  have hguest : (sendMessageGuest g sid gcid content (.error ()) umid amid gnow).1 =
        .err 500 "Failed to process message"
      ∧ (mapGet? (sendMessageGuest g sid gcid content (.error ()) umid amid gnow).2.messages
        sid).getD [] =
        ((mapGet? g.messages sid).getD []) ++
          [⟨umid, gcid, .user, jsTrim content, none, "general", gnow⟩] := by
    rw [sendMessageGuest, if_neg hcontent, hgg]
    simp only [createGuestMessage, getGuestConversationMessages, touchSession]
    rw [hexp2 _ (by simp [touchSession])]
    simp only [Bool.false_eq_true, if_false]
    constructor
    · trivial
    · simp [mapGet?_mapSet_self]
  refine ⟨?_, ?_, ?_, ?_, ?_, hguest.1, hguest.2, ?_⟩
  · rw [huser]
  · rw [huser]
  · rw [huser]
    simp [List.filter_append]
  · rw [huser]
    simp
  · rw [huser]
    simp
  · rw [hguest.2]
    simp [List.filter_append]

/-- C2 witness: concrete upstream failure against a one-conversation durable
store and a one-conversation guest session. -/
theorem sendMessage_upstream_failure_witness :
    (sendMessageUser ⟨[⟨1, 7, "T", 0⟩], [], 2, 1⟩ 7 1 "hi" (.error ()) 5).1 =
        .err 500 "Failed to process message"
    ∧ (sendMessageUser ⟨[⟨1, 7, "T", 0⟩], [], 2, 1⟩ 7 1 "hi" (.error ()) 5).2.messages =
        [⟨1, 1, .user, "hi", none, 5⟩]
    ∧ (sendMessageGuest ⟨[("s", [⟨"c", "s", "T", 0⟩])], [], [("s", 0)]⟩ "s" "c" "hi"
        (.error ()) "u1" "a1" 5).1 = .err 500 "Failed to process message" := by
  have h := sendMessage_upstream_failure ⟨[⟨1, 7, "T", 0⟩], [], 2, 1⟩ 7 1 "hi" 5
    ⟨[("s", [⟨"c", "s", "T", 0⟩])], [], [("s", 0)]⟩ "s" "c" "u1" "a1" 5
    (by decide) (by decide) (by decide)
  refine ⟨h.1, ?_, h.2.2.2.2.2.1⟩
  rw [h.2.1]
  decide

theorem cleanup_all_none {sid : String} (now : Int) :
    ∀ (ks : List String) (g : GuestStore),
      mapGet? g.conversations sid = none → mapGet? g.messages sid = none →
      mapGet? g.sessionTimestamps sid = none →
      mapGet? ((ks.foldl (fun acc s => if isSessionExpired acc s now then cleanupSession acc s
        else acc) g)).conversations sid = none
      ∧ mapGet? ((ks.foldl (fun acc s => if isSessionExpired acc s now then cleanupSession acc s
        else acc) g)).messages sid = none
      ∧ mapGet? ((ks.foldl (fun acc s => if isSessionExpired acc s now then cleanupSession acc s
        else acc) g)).sessionTimestamps sid = none := by
  intro ks
  induction ks with
  | nil => intro g h1 h2 h3; exact ⟨h1, h2, h3⟩
  | cons k rest ih =>
    intro g h1 h2 h3
    simp only [List.foldl_cons]
    by_cases hk : sid = k
    · subst hk
      by_cases he : isSessionExpired g sid now
      · rw [if_pos he]
        exact ih _ (mapGet?_mapDelete_self _ _) (mapGet?_mapDelete_self _ _)
          (mapGet?_mapDelete_self _ _)
      · rw [if_neg he]
        exact ih _ h1 h2 h3
    · by_cases he : isSessionExpired g k now
      · rw [if_pos he]
        exact ih _ ((mapGet?_mapDelete_other _ _ _ hk).trans h1)
          ((mapGet?_mapDelete_other _ _ _ hk).trans h2)
          ((mapGet?_mapDelete_other _ _ _ hk).trans h3)
      · rw [if_neg he]
        exact ih _ h1 h2 h3

theorem reaper_purges_expired_aux {sid : String} (t now : Int)
    (htime : now - t > SESSION_TIMEOUT) :
    ∀ (ks : List String) (g : GuestStore),
      sid ∈ ks → mapGet? g.sessionTimestamps sid = some t →
      mapGet? ((ks.foldl (fun acc s => if isSessionExpired acc s now then cleanupSession acc s
        else acc) g)).conversations sid = none
      ∧ mapGet? ((ks.foldl (fun acc s => if isSessionExpired acc s now then cleanupSession acc s
        else acc) g)).messages sid = none
      ∧ mapGet? ((ks.foldl (fun acc s => if isSessionExpired acc s now then cleanupSession acc s
        else acc) g)).sessionTimestamps sid = none := by
  intro ks
  induction ks with
  | nil => intro g hmem _; simp at hmem
  | cons k rest ih =>
    intro g hmem hts
    simp only [List.foldl_cons]
    by_cases hk : sid = k
    · subst hk
      have he : isSessionExpired g sid now = true := by
        rw [isSessionExpired, hts]
        simpa using htime
      rw [if_pos he]
      exact cleanup_all_none now rest _ (mapGet?_mapDelete_self _ _)
        (mapGet?_mapDelete_self _ _) (mapGet?_mapDelete_self _ _)
    · have hmem' : sid ∈ rest := by
        rcases List.mem_cons.mp hmem with h | h
        · exact absurd h hk
        · exact h
      by_cases he : isSessionExpired g k now
      · rw [if_pos he]
        exact ih _ hmem' ((mapGet?_mapDelete_other _ _ _ hk).trans hts)
      · rw [if_neg he]
        exact ih _ hmem' hts

/-- C3 counterexample: with session "s" last touched at 0 and the clock at
`SESSION_TIMEOUT + 1` (expired), `createGuestMessage` refreshes
`lastTouchedAt` and appends without purging — the pre-expiry conversation
list survives — and `deleteGuestMessage` neither purges nor refreshes,
contradicting "every accessor first checks expiry ... without refreshing". -/
theorem ephemeral_accessor_expiry_violated :
    isSessionExpired ⟨[("s", [⟨"c1", "s", "First", 0⟩])], [], [("s", 0)]⟩ "s" 86400001 = true
    ∧ mapGet? (createGuestMessage ⟨[("s", [⟨"c1", "s", "First", 0⟩])], [], [("s", 0)]⟩
        "c1" "s" .user "hi" none none "m1" 86400001).2.sessionTimestamps "s" = some 86400001
    ∧ mapGet? (createGuestMessage ⟨[("s", [⟨"c1", "s", "First", 0⟩])], [], [("s", 0)]⟩
        "c1" "s" .user "hi" none none "m1" 86400001).2.conversations "s" =
        some [⟨"c1", "s", "First", 0⟩]
    ∧ (deleteGuestMessage ⟨[("s", [⟨"c1", "s", "First", 0⟩])], [], [("s", 0)]⟩
        "m1" "c1" "s").sessionTimestamps = [("s", 0)]
    ∧ (deleteGuestMessage ⟨[("s", [⟨"c1", "s", "First", 0⟩])], [], [("s", 0)]⟩
        "m1" "c1" "s").conversations = [("s", [⟨"c1", "s", "First", 0⟩])] := by
  decide

/-- C3 amended: the conversation/message read accessors and
update-title/delete-conversation do check expiry first, purging and
returning empty/not-found; the reads and update-title refresh
`lastTouchedAt` on success, but delete-conversation does not; the create
operations refresh unconditionally without any expiry check (leaving stale
data in place); and delete-message neither checks expiry nor refreshes. -/
theorem ephemeral_expiry_discipline (g : GuestStore) (sid id cid title nid : String)
    (role : Role) (content : String) (sources responseType : Option String) (now : Int) :
    (isSessionExpired g sid now = true →
      getGuestConversations g sid now = ([], cleanupSession g sid)
      ∧ getGuestConversation g id sid now = (none, cleanupSession g sid)
      ∧ updateGuestConversationTitle g id sid title now = cleanupSession g sid
      ∧ deleteGuestConversation g id sid now = cleanupSession g sid
      ∧ getGuestConversationMessages g cid sid now = ([], cleanupSession g sid))
    ∧ (isSessionExpired g sid now = false →
      (getGuestConversations g sid now).2 = touchSession g sid now
      ∧ (getGuestConversation g id sid now).2 = touchSession g sid now
      ∧ mapGet? (updateGuestConversationTitle g id sid title now).sessionTimestamps sid = some now
      ∧ (deleteGuestConversation g id sid now).sessionTimestamps = g.sessionTimestamps
      ∧ (getGuestConversationMessages g cid sid now).2 = touchSession g sid now)
    ∧ mapGet? (createGuestConversation g sid title nid now).2.sessionTimestamps sid = some now
    ∧ (createGuestConversation g sid title nid now).2.conversations =
        mapSet g.conversations sid
          (⟨nid, sid, title, now⟩ :: (mapGet? g.conversations sid).getD [])
    ∧ mapGet? (createGuestMessage g cid sid role content sources responseType nid
        now).2.sessionTimestamps sid = some now
    ∧ (createGuestMessage g cid sid role content sources responseType nid now).2.messages =
        mapSet g.messages sid ((mapGet? g.messages sid).getD [] ++
          [⟨nid, cid, role, content, sources, responseType.getD "general", now⟩])
    ∧ (deleteGuestMessage g id cid sid).sessionTimestamps = g.sessionTimestamps
    ∧ (deleteGuestMessage g id cid sid).conversations = g.conversations := by
  refine ⟨?_, ?_, ?_, rfl, ?_, rfl, rfl, rfl⟩
  · intro he
    refine ⟨?_, ?_, ?_, ?_, ?_⟩ <;>
      simp [getGuestConversations, getGuestConversation, updateGuestConversationTitle,
        deleteGuestConversation, getGuestConversationMessages, he]
  · intro he
    refine ⟨?_, ?_, ?_, ?_, ?_⟩
    · simp [getGuestConversations, he]
    · simp [getGuestConversation, he]
    · rw [updateGuestConversationTitle, if_neg (by simp [he])]
      by_cases hf : ((((mapGet? (touchSession g sid now).conversations sid).getD []).find?
          (fun c => decide (c.id = id))).isSome)
      · rw [if_pos hf]
        simp [touchSession]
      · rw [if_neg hf]
        simp [touchSession]
    · rw [deleteGuestConversation, if_neg (by simp [he])]
    · simp [getGuestConversationMessages, he]
  · simp [createGuestConversation, touchSession]
  · simp [createGuestMessage, touchSession]

/-- C3 witness: the expiry-discipline theorem instantiated at a concrete
expired store and a concrete live store. -/
theorem ephemeral_expiry_discipline_witness :
    getGuestConversations ⟨[("s", [⟨"c1", "s", "First", 0⟩])], [], [("s", 0)]⟩ "s" 86400001 =
      ([], ⟨[], [], []⟩)
    ∧ (getGuestConversations ⟨[("s", [⟨"c1", "s", "First", 0⟩])], [], [("s", 0)]⟩ "s" 5).2 =
      ⟨[("s", [⟨"c1", "s", "First", 0⟩])], [], [("s", 5)]⟩ := by
  have h1 := (ephemeral_expiry_discipline ⟨[("s", [⟨"c1", "s", "First", 0⟩])], [], [("s", 0)]⟩
    "s" "x" "x" "T" "n" .user "c" none none 86400001).1 (by decide)
  have h2 := ((ephemeral_expiry_discipline ⟨[("s", [⟨"c1", "s", "First", 0⟩])], [], [("s", 0)]⟩
    "s" "x" "x" "T" "n" .user "c" none none 5).2.1 (by decide)).1
  constructor
  · rw [h1.1]
    decide
  · rw [h2]
    decide

/-- C4 counterexample: session "s" is created at time 0 and expired at
`SESSION_TIMEOUT + 1`, yet `createGuestConversation` at that instant
refreshes the lease without purging, and one tick later
`getGuestConversations` returns the pre-expiry conversation again — the
session is lazily revived. -/
theorem expired_session_revived :
    isSessionExpired ⟨[("s", [⟨"c1", "s", "First", 0⟩])], [], [("s", 0)]⟩ "s" 86400001 = true
    ∧ (⟨"c1", "s", "First", 0⟩ : GuestConversation) ∈
        (getGuestConversations
          (createGuestConversation ⟨[("s", [⟨"c1", "s", "First", 0⟩])], [], [("s", 0)]⟩
            "s" "Second" "c2" 86400001).2
          "s" 86400002).1 := by
  decide

/-- C4 amended: an expired session's data is fully purged by any
expiry-checking accessor and by the reaper (after which nothing is left to
revive), but the create operations refresh `lastTouchedAt` without checking
expiry or purging, so data stored before expiry becomes visible again —
lazy revival does occur through `createGuestConversation` /
`createGuestMessage`. -/
theorem expired_session_purge_and_revival (g : GuestStore) (sid title nid : String)
    (t now : Int) :
    (isSessionExpired g sid now = true →
      mapGet? (getGuestConversations g sid now).2.conversations sid = none
      ∧ mapGet? (getGuestConversations g sid now).2.messages sid = none
      ∧ mapGet? (getGuestConversations g sid now).2.sessionTimestamps sid = none)
    ∧ mapGet? (createGuestConversation g sid title nid now).2.sessionTimestamps sid = some now
    ∧ (isSessionExpired g sid now = true →
        mapGet? (createGuestConversation g sid title nid now).2.conversations sid =
          some (⟨nid, sid, title, now⟩ :: (mapGet? g.conversations sid).getD []))
    ∧ (mapGet? g.sessionTimestamps sid = some t → now - t > SESSION_TIMEOUT →
        mapGet? (cleanupExpiredSessions g now).conversations sid = none
        ∧ mapGet? (cleanupExpiredSessions g now).messages sid = none
        ∧ mapGet? (cleanupExpiredSessions g now).sessionTimestamps sid = none) := by
  refine ⟨?_, ?_, ?_, ?_⟩
  · intro he
    simp [getGuestConversations, he, cleanupSession]
  · simp [createGuestConversation, touchSession]
  · intro _
    simp [createGuestConversation, touchSession]
  · intro hts htime
    exact reaper_purges_expired_aux t now htime _ g
      (mapGet?_some_mem_keys _ _ _ hts) hts

/-- C4 witness: the purge/revival theorem instantiated at a concrete
expired store. -/
theorem expired_session_purge_and_revival_witness :
    mapGet? (cleanupExpiredSessions ⟨[("s", [⟨"c1", "s", "First", 0⟩])], [], [("s", 0)]⟩
      86400001).conversations "s" = none
    ∧ mapGet? (createGuestConversation ⟨[("s", [⟨"c1", "s", "First", 0⟩])], [], [("s", 0)]⟩
        "s" "Second" "c2" 86400001).2.conversations "s" =
        some [⟨"c2", "s", "Second", 86400001⟩, ⟨"c1", "s", "First", 0⟩] := by
  have h := expired_session_purge_and_revival
    ⟨[("s", [⟨"c1", "s", "First", 0⟩])], [], [("s", 0)]⟩ "s" "Second" "c2" 0 86400001
  refine ⟨(h.2.2.2 (by decide) (by decide)).1, ?_⟩
  rw [h.2.2.1 (by decide)]
  decide

theorem bucketStep_reject {maxR : Nat} {w : Int} {ts : List Int} {now : Int}
    (h : maxR ≤ (ts.filter (fun t => decide (now - w < t))).length) :
    bucketStep maxR w ts now = (false, ts) := by
  simp [bucketStep, h]

theorem bucketStep_accept {maxR : Nat} {w : Int} {ts : List Int} {now : Int}
    (h : (ts.filter (fun t => decide (now - w < t))).length < maxR) :
    bucketStep maxR w ts now = (true, ts.filter (fun t => decide (now - w < t)) ++ [now]) := by
  simp [bucketStep, Nat.not_le.mpr h]

theorem acceptedTimes_cons (maxR : Nat) (w : Int) (ts : List Int) (now : Int) (rest : List Int) :
    acceptedTimes maxR w ts (now :: rest) =
      if (bucketStep maxR w ts now).1
      then now :: acceptedTimes maxR w (bucketStep maxR w ts now).2 rest
      else acceptedTimes maxR w (bucketStep maxR w ts now).2 rest := by
  rcases h : bucketStep maxR w ts now with ⟨d, ts'⟩
  simp [acceptedTimes, h]

theorem acceptedTimes_cons_reject {maxR : Nat} {w : Int} {ts : List Int} {now : Int}
    (rest : List Int) (h : maxR ≤ (ts.filter (fun t => decide (now - w < t))).length) :
    acceptedTimes maxR w ts (now :: rest) = acceptedTimes maxR w ts rest := by
  rw [acceptedTimes_cons, bucketStep_reject h]
  rfl

theorem acceptedTimes_cons_accept {maxR : Nat} {w : Int} {ts : List Int} {now : Int}
    (rest : List Int) (h : (ts.filter (fun t => decide (now - w < t))).length < maxR) :
    acceptedTimes maxR w ts (now :: rest) =
      now :: acceptedTimes maxR w (ts.filter (fun t => decide (now - w < t)) ++ [now]) rest := by
  rw [acceptedTimes_cons, bucketStep_accept h]
  rfl

theorem rlStep_bucket (m : RLMap) (c : RLCall) :
    (rlStep m c).1 = (bucketStep c.maxRequests c.windowMs ((mapGet? m c.key).getD []) c.now).1
    ∧ mapGet? (rlStep m c).2 c.key =
        some (bucketStep c.maxRequests c.windowMs ((mapGet? m c.key).getD []) c.now).2 := by
  rcases h : mapGet? m c.key with _ | ts
  · have hm1 : mapGet? (mapSet m c.key ([] : List Int)) c.key = some [] :=
      mapGet?_mapSet_self _ _ _
    rw [rlStep, bucketStep]
    simp only [h, Option.isSome_none, Bool.false_eq_true, if_false, hm1, Option.getD_some,
      Option.getD_none]
    by_cases h0 : c.maxRequests ≤ (([] : List Int).filter
        (fun t => decide (c.now - c.windowMs < t))).length
    · rw [if_pos h0, if_pos h0]
      exact ⟨rfl, hm1⟩
    · rw [if_neg h0, if_neg h0]
      exact ⟨rfl, mapGet?_mapSet_self _ _ _⟩
  · rw [rlStep, bucketStep]
    simp only [h, Option.isSome_some, if_true, Option.getD_some]
    by_cases h0 : c.maxRequests ≤ (ts.filter (fun t => decide (c.now - c.windowMs < t))).length
    · rw [if_pos h0, if_pos h0]
      exact ⟨rfl, h⟩
    · rw [if_neg h0, if_neg h0]
      exact ⟨rfl, mapGet?_mapSet_self _ _ _⟩

theorem rlStep_other_key (m : RLMap) (c : RLCall) (k : String) (h : k ≠ c.key) :
    mapGet? (rlStep m c).2 k = mapGet? m k := by
  rw [rlStep]
  have h1 : ∀ m1 : RLMap, mapGet? m1 k = mapGet? m k →
      mapGet? (if c.maxRequests ≤ (((mapGet? m1 c.key).getD []).filter
          (fun t => decide (c.now - c.windowMs < t))).length
        then ((false : Bool), m1)
        else (true, mapSet m1 c.key (((mapGet? m1 c.key).getD []).filter
          (fun t => decide (c.now - c.windowMs < t)) ++ [c.now]))).2 k = mapGet? m k := by
    intro m1 hm1
    by_cases hfull : c.maxRequests ≤ (((mapGet? m1 c.key).getD []).filter
        (fun t => decide (c.now - c.windowMs < t))).length
    · rw [if_pos hfull]
      exact hm1
    · rw [if_neg hfull]
      exact (mapGet?_mapSet_other _ _ _ _ h).trans hm1
  by_cases hs : (mapGet? m c.key).isSome
  · simp only [hs, if_true]
    exact h1 m rfl
  · simp only [hs, Bool.false_eq_true, if_false]
    exact h1 (mapSet m c.key []) (mapGet?_mapSet_other _ _ _ _ h)

theorem rlRun_cons (m : RLMap) (c : RLCall) (rest : List RLCall) :
    rlRun m (c :: rest) =
      ((c, (rlStep m c).1) :: (rlRun (rlStep m c).2 rest).1, (rlRun (rlStep m c).2 rest).2) := by
  rcases hstep : rlStep m c with ⟨d, m'⟩
  rcases hrun : rlRun m' rest with ⟨ps, mf⟩
  simp [rlRun, hstep, hrun]

theorem rlRun_filter_key (k : String) :
    ∀ (calls : List RLCall) (m1 m2 : RLMap), mapGet? m1 k = mapGet? m2 k →
      ((rlRun m1 calls).1.filter (fun p => decide (p.1.key = k))) =
        (rlRun m2 (calls.filter (fun c => decide (c.key = k)))).1 := by
  intro calls
  induction calls with
  | nil => intro m1 m2 _; rfl
  | cons c rest ih =>
    intro m1 m2 hagree
    rw [rlRun_cons]
    by_cases hck : c.key = k
    · have hbuckets : (mapGet? m1 c.key).getD [] = (mapGet? m2 c.key).getD [] := by
        rw [hck, hagree]
      have hdec : (rlStep m1 c).1 = (rlStep m2 c).1 := by
        rw [(rlStep_bucket m1 c).1, (rlStep_bucket m2 c).1, hbuckets]
      have hnext : mapGet? (rlStep m1 c).2 k = mapGet? (rlStep m2 c).2 k := by
        rw [← hck, (rlStep_bucket m1 c).2, (rlStep_bucket m2 c).2, hbuckets]
      rw [List.filter_cons_of_pos (by simpa using hck),
        List.filter_cons_of_pos (by simpa using hck), rlRun_cons]
      simp only [List.cons.injEq]
      exact ⟨by rw [hdec], ih _ _ hnext⟩
    · have hnext : mapGet? (rlStep m1 c).2 k = mapGet? m2 k :=
        (rlStep_other_key m1 c k (fun hh => hck hh.symm)).trans hagree
      rw [List.filter_cons_of_neg (by simpa using hck),
        List.filter_cons_of_neg (by simpa using hck)]
      exact ih _ _ hnext

/-- C5 counterexample: with the shared per-IP map, a register-class call
(`maxRequests = 5`) from key "k" at time 5 is rejected when preceded by five
accepted login-class calls from the same key, but accepted when that
other-class traffic is absent — the decision depends on other route
classes' traffic, so buckets are not independent per (route-class,
clientKey). -/
theorem rateLimiter_not_independent_per_route_class :
    ((rlRun [] [⟨"k", 10, 900000, 0⟩, ⟨"k", 10, 900000, 1⟩, ⟨"k", 10, 900000, 2⟩,
        ⟨"k", 10, 900000, 3⟩, ⟨"k", 10, 900000, 4⟩, ⟨"k", 5, 900000, 5⟩]).1.map (·.2)) =
      [true, true, true, true, true, false]
    ∧ ((rlRun [] [⟨"k", 5, 900000, 5⟩]).1.map (·.2)) = [true] := by
  decide

/-- C5 amended: the rate limiter's buckets are keyed by clientKey only and
shared across route classes; the independence that does hold is per
clientKey — the decisions for key k's calls within any run equal the
decisions of running key k's calls alone, regardless of other keys'
traffic. -/
theorem rateLimiter_per_clientKey_independence (m : RLMap) (calls : List RLCall) (k : String) :
    ((rlRun m calls).1.filter (fun p => decide (p.1.key = k))) =
      (rlRun m (calls.filter (fun c => decide (c.key = k)))).1 :=
  rlRun_filter_key k calls m m rfl

theorem bucket_window_bound_aux (maxR : Nat) (w : Int) :
    ∀ (times : List Int) (tPrev : Int) (ts acc : List Int),
      List.Chain (· ≤ ·) tPrev times →
      (∀ lo : Int, tPrev - w ≤ lo →
        acc.countP (fun s => decide (lo < s)) ≤ ts.countP (fun s => decide (lo < s))) →
      (∀ T : Int, acc.countP (fun s => decide (T - w < s ∧ s ≤ T)) ≤ maxR) →
      (∀ s ∈ acc, s ≤ tPrev) →
      ∀ T : Int, (acc ++ acceptedTimes maxR w ts times).countP
        (fun s => decide (T - w < s ∧ s ≤ T)) ≤ maxR := by
  intro times
  induction times with
  | nil =>
    intro tPrev ts acc _ _ h3 _ T
    simpa [acceptedTimes] using h3 T
  | cons now rest ih =>
    intro tPrev ts acc h1 h2 h3 h4 T
    obtain ⟨hpn, hchain⟩ := List.chain_cons.mp h1
    by_cases hfull : maxR ≤ (ts.filter (fun t => decide (now - w < t))).length
    · rw [acceptedTimes_cons_reject rest hfull]
      exact ih now ts acc hchain
        (fun lo hlo => h2 lo (le_trans (by omega) hlo)) h3
        (fun s hs => le_trans (h4 s hs) hpn) T
    · have hlt := Nat.not_le.mp hfull
      rw [acceptedTimes_cons_accept rest hlt]
      have hassoc : acc ++ now :: acceptedTimes maxR w
          (ts.filter (fun t => decide (now - w < t)) ++ [now]) rest =
          (acc ++ [now]) ++ acceptedTimes maxR w
            (ts.filter (fun t => decide (now - w < t)) ++ [now]) rest := by
        rw [List.append_assoc]
        rfl
      rw [hassoc]
      have hcount : ∀ lo : Int, now - w ≤ lo →
          ((ts.filter (fun t => decide (now - w < t))).countP (fun s => decide (lo < s)))
          = ts.countP (fun s => decide (lo < s)) := by
        intro lo hlo
        rw [List.countP_filter]
        apply List.countP_congr
        intro a _
        by_cases hla : lo < a
        · have h1 : now - w < a := by omega
          simp [hla, h1]
        · simp [hla]
      refine ih now (ts.filter (fun t => decide (now - w < t)) ++ [now]) (acc ++ [now]) hchain
        ?_ ?_ ?_ T
      · intro lo hlo
        rw [List.countP_append, List.countP_append, hcount lo hlo]
        have := h2 lo (le_trans (by omega) hlo)
        omega
      · intro T'
        rw [List.countP_append]
        by_cases hin : T' - w < now ∧ now ≤ T'
        · have hmono : acc.countP (fun s => decide (T' - w < s ∧ s ≤ T')) ≤
              acc.countP (fun s => decide (now - w < s)) := by
            apply List.countP_mono_left
            intro a _ ha
            simp only [decide_eq_true_eq] at ha ⊢
            omega
          have hts := h2 (now - w) (by omega)
          have hreqlen : ts.countP (fun s => decide (now - w < s)) =
              (ts.filter (fun t => decide (now - w < t))).length := by
            rw [List.countP_eq_length_filter]
          have hone : ([now] : List Int).countP (fun s => decide (T' - w < s ∧ s ≤ T')) ≤ 1 := by
            simp only [List.countP_cons, List.countP_nil, Nat.zero_add, decide_eq_true_eq]
            split <;> omega
          have hfin : acc.countP (fun s => decide (T' - w < s ∧ s ≤ T')) < maxR := by
            calc acc.countP (fun s => decide (T' - w < s ∧ s ≤ T'))
                ≤ acc.countP (fun s => decide (now - w < s)) := hmono
              _ ≤ ts.countP (fun s => decide (now - w < s)) := hts
              _ = (ts.filter (fun t => decide (now - w < t))).length := hreqlen
              _ < maxR := hlt
          omega
        · have hzero : ([now] : List Int).countP (fun s => decide (T' - w < s ∧ s ≤ T')) = 0 := by
            simp only [List.countP_cons, List.countP_nil]
            simp [hin]
          rw [hzero]
          simpa using h3 T'
      · intro s hs
        rcases List.mem_append.mp hs with h | h
        · exact le_trans (h4 s h) hpn
        · simpa using List.mem_singleton.mp h ▸ le_refl now

/-- C6 counterexample: with the shared per-clientKey map, an accepted
send-message-class call (window 60000 ms) evicts the register-class
timestamps recorded under the same key, after which a 6th register-class
call within the same rolling 15-minute window is accepted — 6 > 5 accepted
register calls inside one `windowDuration`. -/
theorem rateLimit_rolling_window_violated :
    ((rlRun [] [⟨"k", 5, 900000, 0⟩, ⟨"k", 5, 900000, 1⟩, ⟨"k", 5, 900000, 2⟩,
        ⟨"k", 5, 900000, 3⟩, ⟨"k", 5, 900000, 4⟩, ⟨"k", 5, 900000, 5⟩,
        ⟨"k", 30, 60000, 100000⟩, ⟨"k", 5, 900000, 100001⟩]).1.countP
      (fun p => decide (p.1.maxRequests = 5 ∧ p.1.windowMs = 900000 ∧ p.2 = true ∧
        100001 - 900000 < p.1.now ∧ p.1.now ≤ 100001))) = 6 := by
  decide

/-- C6 amended: `rlStep` realises the sliding-window log per clientKey
(decision and bucket given by `bucketStep`); a call arriving with
`maxRequests` surviving timestamps in the trailing window is rejected and
an accepted call evicts old timestamps and records its own; and provided
all of a clientKey's calls use one route class (one `(maxRequests,
windowDuration)` pair), at most `maxRequests` calls are accepted within any
rolling window — the bound can fail only through another route class
sharing the key (see the counterexample). (Eviction persists only on
accepted calls: a rejecting call leaves the stored list unfiltered.) -/
theorem rateLimit_single_class_window_bound :
    (∀ (m : RLMap) (c : RLCall),
      (rlStep m c).1 = (bucketStep c.maxRequests c.windowMs ((mapGet? m c.key).getD []) c.now).1
      ∧ mapGet? (rlStep m c).2 c.key =
          some (bucketStep c.maxRequests c.windowMs ((mapGet? m c.key).getD []) c.now).2)
    ∧ (∀ (maxR : Nat) (w : Int) (ts : List Int) (now : Int),
        maxR ≤ (ts.filter (fun t => decide (now - w < t))).length →
        bucketStep maxR w ts now = (false, ts))
    ∧ (∀ (maxR : Nat) (w : Int) (ts : List Int) (now : Int),
        (ts.filter (fun t => decide (now - w < t))).length < maxR →
        bucketStep maxR w ts now = (true, ts.filter (fun t => decide (now - w < t)) ++ [now]))
    ∧ (∀ (maxR : Nat) (w : Int) (times : List Int), List.Chain' (· ≤ ·) times →
        ∀ T : Int, (acceptedTimes maxR w [] times).countP
          (fun s => decide (T - w < s ∧ s ≤ T)) ≤ maxR) := by
  refine ⟨rlStep_bucket, fun _ _ _ _ h => bucketStep_reject h,
    fun _ _ _ _ h => bucketStep_accept h, ?_⟩
  intro maxR w times hch T
  cases times with
  | nil => simp [acceptedTimes]
  | cons t0 rest =>
    have hchain : List.Chain (· ≤ ·) t0 (t0 :: rest) :=
      List.chain_cons.mpr ⟨le_refl t0, hch⟩
    have := bucket_window_bound_aux maxR w (t0 :: rest) t0 [] [] hchain
      (fun lo _ => le_refl _) (fun T' => by simp) (fun s hs => by simp at hs) T
    simpa using this

/-- C6 witness: the single-class bound applied to a concrete
nondecreasing call-time trace. -/
theorem rateLimit_single_class_window_bound_witness :
    List.Chain' (· ≤ ·) ([0, 1, 2, 3, 4, 5, 6] : List Int)
    ∧ (acceptedTimes 5 900000 [] [0, 1, 2, 3, 4, 5, 6]).countP
        (fun s => decide ((900001 : Int) - 900000 < s ∧ s ≤ 900001)) ≤ 5
    ∧ bucketStep 5 900000 [0, 1, 2, 3, 4] 5 = (false, [0, 1, 2, 3, 4]) := by
  refine ⟨?_, ?_, ?_⟩
  · norm_num [List.chain'_cons, List.chain'_singleton]
  · exact rateLimit_single_class_window_bound.2.2.2 5 900000 [0, 1, 2, 3, 4, 5, 6]
      (by norm_num [List.chain'_cons, List.chain'_singleton]) 900001
  · exact rateLimit_single_class_window_bound.2.1 5 900000 [0, 1, 2, 3, 4] 5 (by decide)

/-- C8: round-trip — in both backends, appending a message and then listing
the conversation's messages (same identity, same conversation, clock not
running backwards, guest session still live) yields the previous listing
with the new message at the end, content and sources identical; creation-time
ordering is preserved. -/
theorem appendMessage_listMessages_roundtrip
    (g : GuestStore) (sid cid : String) (role : Role) (content : String)
    (sources : Option String) (nid : String) (tA tL : Int)
    (db : DurableDB) (uid ncid : Nat) (drole : Role) (dcontent : String)
    (dsources : Option String) (dnow : Int)
    (hne : content ≠ "") (hdne : dcontent ≠ "")
    (hexp : isSessionExpired g sid tA = false)
    (hmono : ∀ m ∈ (mapGet? g.messages sid).getD [], m.createdAt ≤ tA)
    (hAL : tA ≤ tL) (hTTL : tL - tA ≤ SESSION_TIMEOUT)
    (hconv : (getConversation db ncid uid).isSome)
    (hdmono : ∀ m ∈ db.messages, m.createdAt ≤ dnow) :
    (getGuestConversationMessages
        (createGuestMessage g cid sid role content sources none nid tA).2 cid sid tL).1 =
      (getGuestConversationMessages g cid sid tA).1 ++
        [(createGuestMessage g cid sid role content sources none nid tA).1]
    ∧ (createGuestMessage g cid sid role content sources none nid tA).1.content = content
    ∧ (createGuestMessage g cid sid role content sources none nid tA).1.sources = sources
    ∧ getConversationMessages (createMessage db ncid drole dcontent dsources dnow).2 ncid uid =
      (getConversationMessages db ncid uid).map
        (· ++ [(createMessage db ncid drole dcontent dsources dnow).1])
    ∧ (createMessage db ncid drole dcontent dsources dnow).1.content = dcontent
    ∧ (createMessage db ncid drole dcontent dsources dnow).1.sources = dsources := by
  refine ⟨?_, rfl, rfl, ?_, rfl, rfl⟩
  · have hmsgs : mapGet? (createGuestMessage g cid sid role content sources none nid tA).2.messages
        sid = some ((mapGet? g.messages sid).getD [] ++
          [⟨nid, cid, role, content, sources, "general", tA⟩]) := by
      simp [createGuestMessage, touchSession, mapGet?_mapSet_self]
    have hts : mapGet? (createGuestMessage g cid sid role content sources none nid
        tA).2.sessionTimestamps sid = some tA := by
      simp [createGuestMessage, touchSession, mapGet?_mapSet_self]
    have hexp2 : isSessionExpired
        (createGuestMessage g cid sid role content sources none nid tA).2 sid tL = false := by
      rw [isSessionExpired, hts]
      simp only [decide_eq_false_iff_not]
      omega
    rw [getGuestConversationMessages, getGuestConversationMessages, hexp2, hexp]
    simp only [Bool.false_eq_true, if_false, hmsgs, Option.getD_some]
    rw [List.filter_append]
    have hnewfilter : ([⟨nid, cid, role, content, sources, "general", tA⟩] :
        List GuestMessage).filter (fun m => decide (m.conversationId = cid)) =
        [⟨nid, cid, role, content, sources, "general", tA⟩] := by
      simp
    rw [hnewfilter, stableSortBy_append_single]
    · rfl
    · intro b hb
      exact hmono b (List.mem_of_mem_filter hb)
  · obtain ⟨c, hc⟩ := Option.isSome_iff_exists.mp hconv
    have hc' : getConversation (createMessage db ncid drole dcontent dsources dnow).2 ncid uid =
        some c := hc
    rw [getConversationMessages, getConversationMessages, hc, hc']
    simp only [Except.map]
    have : (createMessage db ncid drole dcontent dsources dnow).2.messages =
        db.messages ++ [⟨db.nextMsgId, ncid, drole, dcontent, dsources, dnow⟩] := rfl
    rw [this, List.filter_append]
    have hnewfilter : ([⟨db.nextMsgId, ncid, drole, dcontent, dsources, dnow⟩] :
        List Message).filter (fun m => decide (m.conversationId = ncid)) =
        [⟨db.nextMsgId, ncid, drole, dcontent, dsources, dnow⟩] := by
      simp
    rw [hnewfilter, stableSortBy_append_single]
    · rfl
    · intro b hb
      exact hdmono b (List.mem_of_mem_filter hb)

/-- C8 witness: the round-trip at a concrete guest session (one prior
message) and a concrete durable conversation (one prior message). -/
theorem appendMessage_listMessages_roundtrip_witness :
    (getGuestConversationMessages
        (createGuestMessage ⟨[("s", [⟨"c", "s", "T", 0⟩])],
          [("s", [⟨"m0", "c", .user, "first", none, "general", 1⟩])], [("s", 1)]⟩
          "c" "s" .assistant "reply" (some "[src]") none "m1" 2).2 "c" "s" 3).1 =
      [⟨"m0", "c", .user, "first", none, "general", 1⟩,
        ⟨"m1", "c", .assistant, "reply", some "[src]", "general", 2⟩]
    ∧ getConversationMessages
        (createMessage ⟨[⟨1, 7, "T", 0⟩], [⟨1, 1, .user, "first", none, 1⟩], 2, 2⟩
          1 .assistant "reply" (some "[src]") 2).2 1 7 =
      .ok [⟨1, 1, .user, "first", none, 1⟩, ⟨2, 1, .assistant, "reply", some "[src]", 2⟩] := by
  have h := appendMessage_listMessages_roundtrip
    ⟨[("s", [⟨"c", "s", "T", 0⟩])], [("s", [⟨"m0", "c", .user, "first", none, "general", 1⟩])],
      [("s", 1)]⟩ "s" "c" .assistant "reply" (some "[src]") "m1" 2 3
    ⟨[⟨1, 7, "T", 0⟩], [⟨1, 1, .user, "first", none, 1⟩], 2, 2⟩ 7 1 .assistant "reply"
    (some "[src]") 2
    (by decide) (by decide) (by decide) (by decide) (by decide) (by decide) (by decide)
    (by decide)
  constructor
  · rw [h.1]
    decide
  · rw [h.2.2.2.1]
    rfl

end StoicChat
